import Mathlib

/-!
Shallow embedding of the duckdb-crawl `crawl_urls` table function
(`crawler_function.cpp`, together with the declarations of
`http_client.hpp` and `robots_parser.hpp`).

Conventions of the embedding:
* C++ `std::string` is modelled as Lean `String`; indices are character
  indices (the code under study only manipulates ASCII URLs, where byte
  and character indices coincide).
* `double` is modelled as `ℚ`; `static_cast<int64_t>` on a `double` is
  truncation toward zero, modelled by `ratTruncToInt`.
* `std::chrono::steady_clock::time_point` is modelled as `ℤ`
  (milliseconds); a default-constructed time point is the epoch `0`.
* The crawler runs single threaded: `CrawlerGlobalState::MaxThreads`
  returns 1 and the whole body of `CrawlerFunction` executes under
  `global_state.mutex`, so one invocation of the table function is one
  atomic step of a sequential transition system.
* `std::this_thread::sleep_for(w)` suspends for at least `w`; the model
  advances the clock by exactly `w`, which is the lower bound relevant
  to the pacing claims.
-/

namespace Crawler

/-! ## String helpers (std::string::find / substr) -/

/-- Index of the first occurrence of `pat` as a contiguous sublist of `l`
(`std::string::find`). -/
def listIndexOfSub (l pat : List Char) : Option Nat :=
  match l with
  | [] => if pat = [] then some 0 else none
  | _ :: tl => if pat.isPrefixOf l then some 0 else (listIndexOfSub tl pat).map (· + 1)

/-- `std::string::find(pat)` returning `none` for `npos`. -/
def strFind (s pat : String) : Option Nat :=
  listIndexOfSub s.data pat.data

/-- `std::string::find(c, start)` returning `none` for `npos`. -/
def strFindCharFrom (s : String) (c : Char) (start : Nat) : Option Nat :=
  (List.findIdx? (fun x => x = c) (s.data.drop start)).map (· + start)

/-- `std::string::substr(start, len)`. -/
def strSubstr (s : String) (start len : Nat) : String :=
  ⟨(s.data.drop start).take len⟩

/-- `static_cast<int64_t>` applied to a `double` value: truncation toward
zero.  `Int.tdiv` is T-division, which truncates toward zero for the
positive denominator of a reduced rational. -/
def ratTruncToInt (q : ℚ) : ℤ :=
  Int.tdiv q.num q.den

/-- `static_cast<int64_t>(crawl_delay_seconds * 1000)` (line 329 of
`crawler_function.cpp`). -/
def requiredDelayMs (delaySeconds : ℚ) : ℤ :=
  ratTruncToInt (delaySeconds * 1000)

/-! ## `ExtractDomain` / `ExtractPath` (crawler_function.cpp:67-100) -/

/-- `ExtractDomain`: find `"://"`, take until the next `/`, drop a
trailing `:port`; return `""` when no `"://"` is present. -/
def ExtractDomain (url : String) : String :=
  match strFind url "://" with
  | none => ""
  | some protoEnd =>
    let domainStart := protoEnd + 3
    let domainEnd := (strFindCharFrom url '/' domainStart).getD url.length
    let domain := strSubstr url domainStart (domainEnd - domainStart)
    match strFindCharFrom domain ':' 0 with
    | none => domain
    | some portPos => strSubstr domain 0 portPos

/-- `ExtractPath`: everything from the first `/` after `"://"`; `"/"`
when there is no `"://"` or no path. -/
def ExtractPath (url : String) : String :=
  match strFind url "://" with
  | none => "/"
  | some protoEnd =>
    match strFindCharFrom url '/' (protoEnd + 3) with
    | none => "/"
    | some pathStart => strSubstr url pathStart (url.length - pathStart)

/-! ## Robots rules (robots_parser.hpp) -/

/-- `RobotsRules` from `robots_parser.hpp`: optional crawl delay plus
allow/disallow pattern lists.  A default-constructed value has no delay
and empty lists. -/
structure RobotsRules where
  crawl_delay : Option ℚ := none
  disallow : List String := []
  allow : List String := []
deriving DecidableEq

/-- Modelled from the spec: the path matcher used by
`RobotsParser::IsAllowed` (the implementation file `robots_parser.cpp`
is not under `src/`; only its declaration is).  A rule matches a path
when it matches a prefix of it; `*` matches any character sequence and a
trailing `$` anchors the end of the path.  Structural recursion on a
fuel argument (every recursive call shrinks `p.length + s.length`, so
`robotsPatMatch` below always supplies enough). -/
def robotsPatMatchFuel : Nat → List Char → List Char → Bool
  | 0, _, _ => false
  | fuel + 1, p, s =>
    match p, s with
    | [], _ => true
    | ['$'], s => s.isEmpty
    | '*' :: p, s =>
      robotsPatMatchFuel fuel p s ||
        (match s with
         | [] => false
         | _ :: s' => robotsPatMatchFuel fuel ('*' :: p) s')
    | _ :: _, [] => false
    | c :: p, c' :: s => c = c' && robotsPatMatchFuel fuel p s

/-- Modelled from the spec: the robots.txt wildcard matcher, with the
fuel fully applied. -/
def robotsPatMatch (p s : List Char) : Bool :=
  robotsPatMatchFuel (p.length + s.length + 1) p s

/-- Modelled from the spec: whether a single robots.txt rule pattern
matches a URL path. -/
def ruleMatches (rule path : String) : Bool :=
  robotsPatMatch rule.data path.data

/-- Modelled from the spec: length of the longest rule in `pats` that
matches `path` (`none` when no rule matches) — the spec's longest-match
selection. -/
def bestMatchLen (pats : List String) (path : String) : Option Nat :=
  ((pats.filter (fun p => ruleMatches p path)).map String.length).max?

/-- Modelled from the spec: `RobotsParser::IsAllowed`
(`robots_parser.cpp` is not under `src/`).  The longest matching rule
wins; a path no rule matches is allowed; on a tie the allow rule wins. -/
def IsAllowed (rules : RobotsRules) (path : String) : Bool :=
  match bestMatchLen rules.disallow path, bestMatchLen rules.allow path with
  | none, _ => true
  | some _, none => false
  | some d, some a => d ≤ a

/-! ## HTTP client declarations (http_client.hpp) -/

/-- `HttpResponse` from `http_client.hpp`, with its member
initializers. -/
structure HttpResponse where
  status_code : ℤ := 0
  body : String := ""
  content_type : String := ""
  retry_after : String := ""
  server_date : String := ""
  etag : String := ""
  last_modified : String := ""
  error : String := ""
  content_length : ℤ := -1
  success : Bool := false
deriving DecidableEq

/-- `RetryConfig` from `http_client.hpp`, with its member initializers:
an initial backoff of 100 ms, multiplied by 2.0 per attempt, capped at
30000 ms. -/
structure RetryConfig where
  max_retries : ℤ := 5
  initial_backoff_ms : ℤ := 100
  backoff_multiplier : ℚ := 2
  max_backoff_ms : ℤ := 30000
deriving DecidableEq

/-- The `RetryConfig` that `CrawlerFunction` passes to
`HttpClient::Fetch` for content fetches (crawler_function.cpp:346-347):
defaults with `max_retries = 3`. -/
def workerRetryConfig : RetryConfig := { max_retries := 3 }

/-- The `RetryConfig` used for robots.txt fetches
(crawler_function.cpp:275-276): defaults with `max_retries = 2`. -/
def robotsRetryConfig : RetryConfig := { max_retries := 2 }

/-- Modelled from the spec: the per-attempt backoff delay of
`HttpClient::Fetch`'s retry loop (`http_client.cpp` is not under
`src/`), instantiating the `RetryConfig` declaration that is:
`initial_backoff_ms` scaled by `backoff_multiplier` per attempt, capped
at `max_backoff_ms`.  In milliseconds. -/
def retryDelayMs (cfg : RetryConfig) (attempt : Nat) : ℚ :=
  min ((cfg.initial_backoff_ms : ℚ) * cfg.backoff_multiplier ^ attempt)
    (cfg.max_backoff_ms : ℚ)

/-- Modelled from the spec: `HttpClient::IsRetryable` (`http_client.cpp`
is not under `src/`): network failures (status 0), 408, 425, 429 and
5xx are retryable; other statuses are not. -/
def IsRetryable (status : ℤ) : Bool :=
  status = 0 || status = 408 || status = 425 || status = 429 ||
    (500 ≤ status && status < 600)

/-- Modelled from the spec: the retry loop of `HttpClient::Fetch`
(`http_client.cpp` is not under `src/`): attempt, and while the result
is an unsuccessful retryable one and retries remain, sleep the backoff
delay for the attempt and try again.  `results n` is the outcome of the
`n`-th attempt; the returned list is the sequence of backoff delays
slept, in order. -/
def fetchAttempts (results : Nat → HttpResponse) (cfg : RetryConfig) :
    Nat → Nat → HttpResponse × List ℚ
  | 0, attempt => (results attempt, [])
  | fuel + 1, attempt =>
    let r := results attempt
    if r.success then (r, [])
    else if IsRetryable r.status_code then
      let rest := fetchAttempts results cfg fuel (attempt + 1)
      (rest.1, retryDelayMs cfg attempt :: rest.2)
    else (r, [])

/-- Modelled from the spec: `HttpClient::Fetch`'s overall retry
behaviour for a given configuration. -/
def FetchModel (results : Nat → HttpResponse) (cfg : RetryConfig) :
    HttpResponse × List ℚ :=
  fetchAttempts results cfg cfg.max_retries.toNat 0

/-- The Fibonacci sequence `1, 1, 2, 3, 5, 8, …` named by the spec's
backoff description (written from the spec's words, for comparison with
the source-derived schedule). -/
def specFib : Nat → Nat
  | 0 => 1
  | 1 => 1
  | n + 2 => specFib n + specFib (n + 1)

/-- The spec's claimed backoff schedule, in milliseconds: Fibonacci
numbers of seconds. -/
def specFibBackoffMs (k : Nat) : ℚ :=
  1000 * specFib k

/-! ## Signal handling (crawler_function.cpp:20-41) -/

/-- The three process-wide signal globals: `g_shutdown_requested`,
`g_sigint_count` and `g_last_sigint_time` (steady-clock ms). -/
structure SignalState where
  shutdown_requested : Bool
  sigint_count : ℤ
  last_sigint_time : ℤ
deriving DecidableEq

/-- Outcome of running the signal handler: either the process continues
with an updated signal state, or `std::exit(code)` was called. -/
inductive HandlerOutcome where
  | continues (s : SignalState) : HandlerOutcome
  | exited (code : ℤ) : HandlerOutcome
deriving DecidableEq

/-- `SIGINT`'s value on POSIX systems. -/
def SIGINT : ℤ := 2

/-- `SignalHandler` (crawler_function.cpp:26-41).  `elapsed` is the
truncated whole-second difference from the previous SIGINT
(`duration_cast<seconds>`); the count is incremented and the time
recorded before the double-interrupt test; `std::exit(1)` fires when
the incremented count is at least 2 and the elapsed seconds are below
3; otherwise the shutdown flag is set. -/
def SignalHandler (signum : ℤ) (now : ℤ) (s : SignalState) : HandlerOutcome :=
  if signum = SIGINT then
    let elapsedSec := Int.tdiv (now - s.last_sigint_time) 1000
    let count := s.sigint_count + 1
    if 2 ≤ count ∧ elapsedSec < 3 then
      .exited 1
    else
      .continues { shutdown_requested := true, sigint_count := count, last_sigint_time := now }
  else
    .continues s

/-! ## Bind phase (crawler_function.cpp:102-220, 377-391) -/

/-- `CrawlerBindData`.  `make_uniq` value-initializes the object, so
every member starts zeroed (numbers 0, strings empty, booleans false). -/
structure CrawlerBindData where
  urls : List String := []
  user_agent : String := ""
  default_crawl_delay : ℚ := 0
  min_crawl_delay : ℚ := 0
  max_crawl_delay : ℚ := 0
  timeout_seconds : ℤ := 0
  respect_robots_txt : Bool := false
  log_skipped : Bool := false
deriving DecidableEq

/-- A named parameter of `crawl_urls`, carrying the payload type it is
registered with (crawler_function.cpp:382-388).  `other` stands for any
key the bind loop's if-chain does not match. -/
inductive NamedParam where
  | user_agent (s : String)
  | default_crawl_delay (q : ℚ)
  | min_crawl_delay (q : ℚ)
  | max_crawl_delay (q : ℚ)
  | timeout_seconds (i : ℤ)
  | respect_robots_txt (b : Bool)
  | log_skipped (b : Bool)
  | other
deriving DecidableEq

/-- Whether a named parameter is the `user_agent` one. -/
def NamedParam.isUserAgent : NamedParam → Bool
  | .user_agent _ => true
  | _ => false

/-- The positional argument of `crawl_urls`: either a `LIST` of VARCHAR
values or a value of some other type. -/
inductive BindInput where
  | urlList (urls : List String)
  | otherValue
deriving DecidableEq

/-- The binder errors `CrawlerBind` can throw. -/
inductive BindError where
  | missingUserAgent
  | missingUrlList
  | notAUrlList
deriving DecidableEq

/-- The parameter loop of `CrawlerBind` (crawler_function.cpp:143-160):
fold the named parameters over the zero-initialized bind data, tracking
`has_user_agent`. -/
def bindParamLoop (ps : List NamedParam) (bd : CrawlerBindData) (hasUA : Bool) :
    CrawlerBindData × Bool :=
  match ps with
  | [] => (bd, hasUA)
  | p :: rest =>
    match p with
    | .user_agent s => bindParamLoop rest { bd with user_agent := s } true
    | .default_crawl_delay q => bindParamLoop rest { bd with default_crawl_delay := q } hasUA
    | .min_crawl_delay q => bindParamLoop rest { bd with min_crawl_delay := q } hasUA
    | .max_crawl_delay q => bindParamLoop rest { bd with max_crawl_delay := q } hasUA
    | .timeout_seconds i => bindParamLoop rest { bd with timeout_seconds := i } hasUA
    | .respect_robots_txt b => bindParamLoop rest { bd with respect_robots_txt := b } hasUA
    | .log_skipped b => bindParamLoop rest { bd with log_skipped := b } hasUA
    | .other => bindParamLoop rest bd hasUA

/-- The output column names `CrawlerBind` declares
(crawler_function.cpp:195-217). -/
def crawlerOutputNames : List String :=
  ["url", "domain", "http_status", "body", "content_type", "elapsed_ms",
   "crawled_at", "error"]

/-- `CrawlerBind` (crawler_function.cpp:137-220): parse the named
parameters; throw if `user_agent` is missing; apply the `== 0` defaults
for `default_crawl_delay` (1.0), `max_crawl_delay` (60.0) and
`timeout_seconds` (30); then unconditionally overwrite
`respect_robots_txt` and `log_skipped` with `true` (lines 176-177);
finally require the first positional input to be a list of URLs.
Returns the bind data together with the declared output schema.  The
bind phase is pure: it creates no tables, starts no workers and issues
no HTTP requests. -/
def CrawlerBind (ps : List NamedParam) (inputs : List BindInput) :
    Except BindError (CrawlerBindData × List String) :=
  let parsed := bindParamLoop ps {} false
  if parsed.2 = false then
    .error .missingUserAgent
  else
    let bd0 := parsed.1
    let bd1 := if bd0.default_crawl_delay = 0 then { bd0 with default_crawl_delay := 1 } else bd0
    let bd2 := if bd1.max_crawl_delay = 0 then { bd1 with max_crawl_delay := 60 } else bd1
    let bd3 := if bd2.timeout_seconds = 0 then { bd2 with timeout_seconds := 30 } else bd2
    let bd4 := { bd3 with respect_robots_txt := true, log_skipped := true }
    match inputs with
    | [] => .error .missingUrlList
    | input0 :: _ =>
      match input0 with
      | .urlList us => .ok ({ bd4 with urls := us }, crawlerOutputNames)
      | .otherValue => .error .notAUrlList

/-! ## Domain state and crawler state (crawler_function.cpp:43-135) -/

/-- `DomainState` (crawler_function.cpp:44-52) with its member
initializers; a default-constructed steady-clock time point is the
epoch `0`. -/
structure DomainState where
  last_crawl_time : ℤ := 0
  crawl_delay_seconds : ℚ := 1
  rules : RobotsRules := {}
  robots_fetched : Bool := false
  urls_crawled : ℤ := 0
  urls_failed : ℤ := 0
  urls_skipped : ℤ := 0
deriving DecidableEq

/-- `CrawlerGlobalState` (crawler_function.cpp:115-130).  The
`unordered_map` of domain states is modelled as a total function whose
value at a never-written key is the default `DomainState`, matching
`operator[]`'s default insertion. -/
structure CrawlerGlobalState where
  current_url_index : Nat := 0
  domain_states : String → DomainState := fun _ => {}
  total_crawled : ℤ := 0
  total_failed : ℤ := 0
  total_skipped : ℤ := 0
  total_cancelled : ℤ := 0

/-- `CrawlerLocalState` (crawler_function.cpp:133-135). -/
structure CrawlerLocalState where
  finished : Bool := false
deriving DecidableEq

/-- Point update of the domain-state map. -/
def setDomain (f : String → DomainState) (d : String) (st : DomainState) :
    String → DomainState :=
  fun d' => if d' = d then st else f d'

/-- One output row of `crawl_urls`, in the column order declared by
`CrawlerBind`; nullable columns are `Option`s. -/
structure Row where
  url : String
  domain : String
  http_status : ℤ
  body : Option String
  content_type : Option String
  elapsed_ms : ℤ
  crawled_at : ℤ
  error : Option String
deriving DecidableEq

/-- A call to `HttpClient::Fetch` issued by `CrawlerFunction`, with the
arguments the crawler passes. -/
structure FetchCall where
  url : String
  config : RetryConfig
  user_agent : String
deriving DecidableEq

/-- A content fetch performed by a step, with its steady-clock start and
finish times, the host's `crawl_delay_seconds` at the pacing check
(`delayQ`) and the code's `required_delay_ms` derived from it
(`delayMs`). -/
structure FetchEvent where
  url : String
  domain : String
  start : ℤ
  finish : ℤ
  delayQ : ℚ
  delayMs : ℤ
deriving DecidableEq

/-- The environment one invocation of `CrawlerFunction` runs in:
`fetch`/`dur` give `HttpClient::Fetch`'s result and wall-clock duration
per URL; `shutdownAtEntry` and `shutdownAfterSleep` are the two reads
of `g_shutdown_requested` (crawler_function.cpp:248 and 337); `sysNow`
is `Timestamp::GetCurrentTimestamp()`.  `getRules` stands for
`RobotsParser::GetRulesForUserAgent(RobotsParser::Parse(body),
user_agent)`, whose implementation (`robots_parser.cpp`) is not under
`src/`; the theorems quantify over every possible parsing outcome. -/
structure StepEnv where
  fetch : String → HttpResponse
  dur : String → ℤ
  getRules : String → RobotsRules
  shutdownAtEntry : Bool
  shutdownAfterSleep : Bool
  sysNow : ℤ

/-- The robots.txt URL `CrawlerFunction` builds for a domain
(crawler_function.cpp:274): always the `https` scheme. -/
def robotsUrlFor (domain : String) : String :=
  "https://" ++ domain ++ "/robots.txt"

/-- `bind_data.urls[i]` (well-defined in context: the code indexes only
below `urls.size()`). -/
def urlAt (bd : CrawlerBindData) (i : Nat) : String :=
  bd.urls.getD i ""

/-- Whether the step fetches robots.txt for this domain
(crawler_function.cpp:273). -/
def robotsBlockRuns (bd : CrawlerBindData) (st0 : DomainState) : Bool :=
  bd.respect_robots_txt && !st0.robots_fetched

/-- The robots.txt block of `CrawlerFunction`
(crawler_function.cpp:272-300): on a successful fetch, install the
rules for the configured agent and seed the crawl delay from the rules'
crawl-delay (else `default_crawl_delay`), clamping with `max` against
`min_crawl_delay` and then `min` against `max_crawl_delay`; on a failed
fetch, set the delay to `default_crawl_delay` with no clamping.  Either
way mark robots as fetched. -/
def stateAfterRobots (bd : CrawlerBindData) (env : StepEnv) (domain : String)
    (st0 : DomainState) : DomainState :=
  if robotsBlockRuns bd st0 then
    let resp := env.fetch (robotsUrlFor domain)
    if resp.success then
      let rules := env.getRules resp.body
      let seed := rules.crawl_delay.getD bd.default_crawl_delay
      { st0 with rules := rules,
                 crawl_delay_seconds := min (max seed bd.min_crawl_delay) bd.max_crawl_delay,
                 robots_fetched := true }
    else
      { st0 with crawl_delay_seconds := bd.default_crawl_delay,
                 robots_fetched := true }
  else st0

/-- The `HttpClient::Fetch` calls issued by the robots block. -/
def robotsFetchCalls (bd : CrawlerBindData) (domain : String) (st0 : DomainState) :
    List FetchCall :=
  if robotsBlockRuns bd st0 then [⟨robotsUrlFor domain, robotsRetryConfig, bd.user_agent⟩]
  else []

/-- Wall-clock time consumed by the robots block. -/
def robotsFetchDur (bd : CrawlerBindData) (env : StepEnv) (domain : String)
    (st0 : DomainState) : ℤ :=
  if robotsBlockRuns bd st0 then env.dur (robotsUrlFor domain) else 0

/-- Everything one invocation of `CrawlerFunction` produces: the output
chunk (0 or 1 rows), the successor global/local state, the steady clock
after the step, the `HttpClient::Fetch` calls issued, and the content
fetch performed, if any. -/
structure StepOut where
  output : List Row
  g : CrawlerGlobalState
  l : CrawlerLocalState
  now : ℤ
  fetches : List FetchCall
  event : Option FetchEvent

/-- `CrawlerFunction` (crawler_function.cpp:243-375), one invocation.
The whole body runs under `global_state.mutex` and `MaxThreads()` is 1,
so an invocation is one atomic step.  Branches, in source order: early
return when finished or shutdown was requested; exhaustion of the URL
list; robots.txt fetch; robots disallow (skip row if `log_skipped`,
silent otherwise); crawl-delay pacing (sleep until
`last_crawl_time + required_delay_ms`); shutdown check after the wait;
the content fetch and its result row. -/
def CrawlerFunction (bd : CrawlerBindData) (env : StepEnv) (g : CrawlerGlobalState)
    (l : CrawlerLocalState) (now0 : ℤ) : StepOut :=
  if l.finished || env.shutdownAtEntry then
    ⟨[], g, l, now0, [], none⟩
  else if bd.urls.length ≤ g.current_url_index then
    ⟨[], g, { finished := true }, now0, [], none⟩
  else
    let url := urlAt bd g.current_url_index
    let g1 := { g with current_url_index := g.current_url_index + 1 }
    let domain := ExtractDomain url
    let path := ExtractPath url
    let st0 := g1.domain_states domain
    let st1 := stateAfterRobots bd env domain st0
    let rFetches := robotsFetchCalls bd domain st0
    let now1 := now0 + robotsFetchDur bd env domain st0
    if bd.respect_robots_txt && !(IsAllowed st1.rules path) then
      let g2 := { g1 with
        domain_states := setDomain g1.domain_states domain
          { st1 with urls_skipped := st1.urls_skipped + 1 },
        total_skipped := g1.total_skipped + 1 }
      if bd.log_skipped then
        ⟨[⟨url, domain, -1, none, none, 0, env.sysNow, some "robots.txt disallow"⟩],
         g2, l, now1, rFetches, none⟩
      else
        ⟨[], g2, l, now1, rFetches, none⟩
    else
      let elapsed := now1 - st1.last_crawl_time
      let required := requiredDelayMs st1.crawl_delay_seconds
      let now2 := if elapsed < required then now1 + (required - elapsed) else now1
      if env.shutdownAfterSleep then
        ⟨[], { g1 with
               domain_states := setDomain g1.domain_states domain st1,
               total_cancelled := g1.total_cancelled + 1 },
         l, now2, rFetches, none⟩
      else
        let resp := env.fetch url
        let fetchEnd := now2 + env.dur url
        let st2 := { st1 with
          last_crawl_time := fetchEnd,
          urls_crawled := st1.urls_crawled + (if resp.success then 1 else 0),
          urls_failed := st1.urls_failed + (if resp.success then 0 else 1) }
        ⟨[⟨url, domain, resp.status_code,
           (if resp.body = "" then none else some resp.body),
           (if resp.content_type = "" then none else some resp.content_type),
           env.dur url, env.sysNow,
           (if resp.error = "" then none else some resp.error)⟩],
         { g1 with
           domain_states := setDomain g1.domain_states domain st2,
           total_crawled := g1.total_crawled + (if resp.success then 1 else 0),
           total_failed := g1.total_failed + (if resp.success then 0 else 1) },
         l, fetchEnd,
         rFetches ++ [⟨url, workerRetryConfig, bd.user_agent⟩],
         some ⟨url, domain, now2, fetchEnd, st1.crawl_delay_seconds, required⟩⟩

/-! ## Whole-run model -/

/-- Accumulated run state: crawler state plus the rows, content-fetch
events and `HttpClient::Fetch` calls produced so far. -/
structure RunAcc where
  g : CrawlerGlobalState
  l : CrawlerLocalState
  now : ℤ
  rows : List Row
  events : List FetchEvent
  fetches : List FetchCall

/-- Run `CrawlerFunction` once per environment in `envs`, threading the
state and appending outputs (the engine repeatedly invokes the table
function; each list element is one invocation). -/
def runCrawler (bd : CrawlerBindData) : List StepEnv → RunAcc → RunAcc
  | [], acc => acc
  | e :: es, acc =>
    let s := CrawlerFunction bd e acc.g acc.l acc.now
    runCrawler bd es
      ⟨s.g, s.l, s.now, acc.rows ++ s.output, acc.events ++ s.event.toList,
       acc.fetches ++ s.fetches⟩

/-- The state `CrawlerInitGlobal`/`CrawlerInitLocal` start a run from
(crawler_function.cpp:222-241), at steady-clock time `now0`. -/
def initAcc (now0 : ℤ) : RunAcc :=
  ⟨{}, {}, now0, [], [], []⟩

/-! ## Named step components

Abbreviations for the intermediate values of one `CrawlerFunction`
invocation (the `let`s of its body), used to state branch equations. -/

/-- The URL the step processes. -/
def stepUrl (bd : CrawlerBindData) (g : CrawlerGlobalState) : String :=
  urlAt bd g.current_url_index

/-- Its domain. -/
def stepDomain (bd : CrawlerBindData) (g : CrawlerGlobalState) : String :=
  ExtractDomain (stepUrl bd g)

/-- Its path. -/
def stepPath (bd : CrawlerBindData) (g : CrawlerGlobalState) : String :=
  ExtractPath (stepUrl bd g)

/-- The domain state looked up (and default-inserted) for it. -/
def stepSt0 (bd : CrawlerBindData) (g : CrawlerGlobalState) : DomainState :=
  g.domain_states (stepDomain bd g)

/-- The domain state after the robots.txt block. -/
def stepSt1 (bd : CrawlerBindData) (env : StepEnv) (g : CrawlerGlobalState) : DomainState :=
  stateAfterRobots bd env (stepDomain bd g) (stepSt0 bd g)

/-- The steady clock after the robots.txt block. -/
def stepNow1 (bd : CrawlerBindData) (env : StepEnv) (g : CrawlerGlobalState) (now0 : ℤ) : ℤ :=
  now0 + robotsFetchDur bd env (stepDomain bd g) (stepSt0 bd g)

/-- The step's `required_delay_ms`. -/
def stepReq (bd : CrawlerBindData) (env : StepEnv) (g : CrawlerGlobalState) : ℤ :=
  requiredDelayMs (stepSt1 bd env g).crawl_delay_seconds

/-- The steady clock after the crawl-delay wait: the content fetch's
start time. -/
def stepNow2 (bd : CrawlerBindData) (env : StepEnv) (g : CrawlerGlobalState) (now0 : ℤ) : ℤ :=
  if stepNow1 bd env g now0 - (stepSt1 bd env g).last_crawl_time < stepReq bd env g then
    stepNow1 bd env g now0 +
      (stepReq bd env g - (stepNow1 bd env g now0 - (stepSt1 bd env g).last_crawl_time))
  else stepNow1 bd env g now0

/-- The content fetch's end time. -/
def stepFetchEnd (bd : CrawlerBindData) (env : StepEnv) (g : CrawlerGlobalState) (now0 : ℤ) : ℤ :=
  stepNow2 bd env g now0 + env.dur (stepUrl bd g)

/-- The fetch event the fetch branch records. -/
def stepEventVal (bd : CrawlerBindData) (env : StepEnv) (g : CrawlerGlobalState) (now0 : ℤ) :
    FetchEvent :=
  ⟨stepUrl bd g, stepDomain bd g, stepNow2 bd env g now0, stepFetchEnd bd env g now0,
   (stepSt1 bd env g).crawl_delay_seconds, stepReq bd env g⟩

/-- The domain state written back by the fetch branch. -/
def stepSt2 (bd : CrawlerBindData) (env : StepEnv) (g : CrawlerGlobalState) (now0 : ℤ) :
    DomainState :=
  { stepSt1 bd env g with
    last_crawl_time := stepFetchEnd bd env g now0,
    urls_crawled := (stepSt1 bd env g).urls_crawled +
      (if (env.fetch (stepUrl bd g)).success then 1 else 0),
    urls_failed := (stepSt1 bd env g).urls_failed +
      (if (env.fetch (stepUrl bd g)).success then 0 else 1) }

/-! ## Pacing relation and run invariant -/

/-- The pacing-relevant fields of a domain state. -/
def pacingView (st : DomainState) : ℤ × ℚ × Bool :=
  (st.last_crawl_time, st.crawl_delay_seconds, st.robots_fetched)

/-- Relation between two consecutive content fetches of one host: the
later one starts no earlier than the earlier one finished plus the
host's `required_delay_ms`; the delay in force at the later fetch's
pacing check equals the delay in force when the earlier one finished;
and the spec's 50 ms-tolerance form of the bound holds. -/
def pacedR (a b : FetchEvent) : Prop :=
  a.finish + b.delayMs ≤ b.start ∧ b.delayQ = a.delayQ ∧
    (a.finish : ℚ) + b.delayQ * 1000 - 50 ≤ (b.start : ℚ)

/-- Events of one domain, in order. -/
def domainEvents (evs : List FetchEvent) (d : String) : List FetchEvent :=
  evs.filter (fun e => e.domain = d)

/-- Invariant carried along a run: per-domain event chains are paced;
every event's `delayMs` is the truncation of its `delayQ`; and for a
domain with at least one event, the stored domain state remembers the
last event's finish time and delay, with robots marked fetched whenever
robots are respected. -/
def RunInv (bd : CrawlerBindData) (acc : RunAcc) : Prop :=
  (∀ d, List.Chain' pacedR (domainEvents acc.events d)) ∧
  (∀ e ∈ acc.events, e.delayMs = requiredDelayMs e.delayQ) ∧
  (∀ d e, (domainEvents acc.events d).getLast? = some e →
    (acc.g.domain_states d).last_crawl_time = e.finish ∧
    (acc.g.domain_states d).crawl_delay_seconds = e.delayQ ∧
    (bd.respect_robots_txt = true → (acc.g.domain_states d).robots_fetched = true))

/-! ## Concrete fixtures for witnesses and counterexamples -/

/-- Bind data as produced by
`crawl_urls(['https://example.com/private/secret'], user_agent='Bot',
default_crawl_delay=1, min_crawl_delay=5)`: the bound defaults with a
minimum delay of 5 s. -/
def fixtureBdDis : CrawlerBindData :=
  { urls := ["https://example.com/private/secret"], user_agent := "Bot",
    default_crawl_delay := 1, min_crawl_delay := 5, max_crawl_delay := 60,
    timeout_seconds := 30, respect_robots_txt := true, log_skipped := true }

/-- An environment where every `HttpClient::Fetch` fails (robots.txt
included), every fetch takes 10 ms, and nothing is shut down. -/
def fixtureEnvFail : StepEnv :=
  { fetch := fun _ => {}, dur := fun _ => 10, getRules := fun _ => {},
    shutdownAtEntry := false, shutdownAfterSleep := false, sysNow := 777 }

/-- A successful robots.txt response. -/
def fixtureRobotsResp : HttpResponse :=
  { status_code := 200, body := "x", success := true }

/-- An environment whose robots.txt fetch succeeds and parses to rules
disallowing `/private`. -/
def fixtureEnvDis : StepEnv :=
  { fixtureEnvFail with
    fetch := fun u => if u = "https://example.com/robots.txt" then fixtureRobotsResp else {},
    getRules := fun _ => { disallow := ["/private"] } }

/-- An environment whose robots.txt fetch succeeds and carries a
crawl-delay of 120 s (above the 60 s maximum). -/
def fixtureEnvBigDelay : StepEnv :=
  { fixtureEnvFail with
    fetch := fun u => if u = "https://example.com/robots.txt" then fixtureRobotsResp else {},
    getRules := fun _ => { crawl_delay := some 120 } }

/-- Bind data whose single input is not a URL at all. -/
def fixtureBdNotUrl : CrawlerBindData :=
  { urls := ["not-a-url"], user_agent := "Bot",
    default_crawl_delay := 1, min_crawl_delay := 0, max_crawl_delay := 60,
    timeout_seconds := 30, respect_robots_txt := true, log_skipped := true }

/-- Bind data for a two-URL same-host crawl. -/
def fixtureBdTwo : CrawlerBindData :=
  { urls := ["http://h.com/a", "http://h.com/b"], user_agent := "Bot",
    default_crawl_delay := 2, min_crawl_delay := 0, max_crawl_delay := 60,
    timeout_seconds := 30, respect_robots_txt := true, log_skipped := true }

/-- A global state in which host `h.com` has already been crawled once:
robots fetched, a 2 s delay, last fetch at steady-clock 999000 ms. -/
def fixtureGMid : CrawlerGlobalState :=
  { current_url_index := 0,
    domain_states := setDomain (fun _ => {}) "h.com"
      { last_crawl_time := 999000, crawl_delay_seconds := 2, robots_fetched := true } }

/-- `fixtureEnvFail` with the shutdown flag observed set at the
post-sleep check (crawler_function.cpp:337). -/
def fixtureEnvShutdownAfter : StepEnv :=
  { fixtureEnvFail with shutdownAfterSleep := true }

/-- An all-failures attempt sequence: every attempt yields a 503. -/
def fixtureResults503 (n : Nat) : HttpResponse :=
  match n with
  | _ => { status_code := 503 }

/-- `fixtureEnvFail` with the shutdown flag observed set already at the
entry check (crawler_function.cpp:248). -/
def fixtureEnvShutdownEntry : StepEnv :=
  { fixtureEnvFail with shutdownAtEntry := true }

/-! ## Helper lemmas -/

theorem stateAfterRobots_of_fetched (bd : CrawlerBindData) (env : StepEnv) (d : String)
    (st0 : DomainState) (h : st0.robots_fetched = true) :
    stateAfterRobots bd env d st0 = st0 := by
  unfold stateAfterRobots robotsBlockRuns
  simp [h]

theorem stateAfterRobots_of_noRespect (bd : CrawlerBindData) (env : StepEnv) (d : String)
    (st0 : DomainState) (h : bd.respect_robots_txt = false) :
    stateAfterRobots bd env d st0 = st0 := by
  unfold stateAfterRobots robotsBlockRuns
  simp [h]

theorem robotsBlockRuns_of (bd : CrawlerBindData) (st0 : DomainState)
    (hr : bd.respect_robots_txt = true) (hf : st0.robots_fetched = false) :
    robotsBlockRuns bd st0 = true := by
  unfold robotsBlockRuns
  simp [hr, hf]

theorem stateAfterRobots_last_crawl_time (bd : CrawlerBindData) (env : StepEnv) (d : String)
    (st0 : DomainState) :
    (stateAfterRobots bd env d st0).last_crawl_time = st0.last_crawl_time := by
  unfold stateAfterRobots
  split
  · simp only []
    split <;> rfl
  · rfl

theorem stateAfterRobots_fetched_of_respect (bd : CrawlerBindData) (env : StepEnv) (d : String)
    (st0 : DomainState) (hr : bd.respect_robots_txt = true) :
    (stateAfterRobots bd env d st0).robots_fetched = true := by
  unfold stateAfterRobots robotsBlockRuns
  rcases h : st0.robots_fetched with _ | _
  · simp only [hr, h, Bool.not_false, Bool.and_true, if_true]
    split <;> rfl
  · simp [hr, h]

theorem setDomain_same (f : String → DomainState) (d : String) (st : DomainState) :
    setDomain f d st d = st := by
  unfold setDomain
  simp

theorem setDomain_other (f : String → DomainState) (d : String) (st : DomainState)
    (d' : String) (h : d' ≠ d) : setDomain f d st d' = f d' := by
  unfold setDomain
  simp [h]

theorem bindParamLoop_noUA (ps : List NamedParam) (bd : CrawlerBindData)
    (h : ∀ p ∈ ps, p.isUserAgent = false) :
    (bindParamLoop ps bd false).2 = false := by
  induction ps generalizing bd with
  | nil => rfl
  | cons p rest ih =>
    have hp := h p (List.mem_cons_self _ _)
    have hrest : ∀ q ∈ rest, q.isUserAgent = false := fun q hq => h q (List.mem_cons_of_mem _ hq)
    cases p with
    | user_agent s => simp [NamedParam.isUserAgent] at hp
    | default_crawl_delay q => exact ih _ hrest
    | min_crawl_delay q => exact ih _ hrest
    | max_crawl_delay q => exact ih _ hrest
    | timeout_seconds i => exact ih _ hrest
    | respect_robots_txt b => exact ih _ hrest
    | log_skipped b => exact ih _ hrest
    | other => exact ih _ hrest

/-! ## Claim theorems -/

/-- C9 (confirmed): whenever `CrawlerFunction` fetches robots.txt for
the host of the URL it is processing, the first `HttpClient::Fetch`
call it issues is for `"https://" ++ host ++ "/robots.txt"` — always
the `https` scheme, whatever the scheme of the URL being crawled
(crawler_function.cpp:274). -/
theorem c9_robots_always_https (bd : CrawlerBindData) (env : StepEnv)
    (g : CrawlerGlobalState) (l : CrawlerLocalState) (now0 : ℤ)
    (hl : l.finished = false) (hsd : env.shutdownAtEntry = false)
    (hidx : g.current_url_index < bd.urls.length)
    (hr : bd.respect_robots_txt = true)
    (hf : (g.domain_states (ExtractDomain (urlAt bd g.current_url_index))).robots_fetched = false) :
    (CrawlerFunction bd env g l now0).fetches.head? =
      some ⟨"https://" ++ ExtractDomain (urlAt bd g.current_url_index) ++ "/robots.txt",
            robotsRetryConfig, bd.user_agent⟩ := by
  have hrb : robotsBlockRuns bd
      (g.domain_states (ExtractDomain (urlAt bd g.current_url_index))) = true :=
    robotsBlockRuns_of _ _ hr hf
  unfold CrawlerFunction
  rw [if_neg (by simp [hl, hsd])]
  rw [if_neg (by omega)]
  simp only []
  split
  · split
    · simp [robotsFetchCalls, hrb, robotsUrlFor]
    · simp [robotsFetchCalls, hrb, robotsUrlFor]
  · split
    · simp [robotsFetchCalls, hrb, robotsUrlFor]
    · simp [robotsFetchCalls, hrb, robotsUrlFor]

/-- Witness for C9: crawling the plain-HTTP URL `http://h.com/a` from a
fresh state issues the robots fetch for `https://h.com/robots.txt`. -/
theorem c9_witness :
    (CrawlerFunction fixtureBdTwo fixtureEnvFail {} {} 1000000).fetches.head? =
      some ⟨"https://" ++ ExtractDomain (urlAt fixtureBdTwo 0) ++ "/robots.txt",
            robotsRetryConfig, fixtureBdTwo.user_agent⟩ :=
  c9_robots_always_https fixtureBdTwo fixtureEnvFail {} {} 1000000
    rfl rfl (by decide) rfl (by decide)

/-- C5 (confirmed): invoking `crawl_urls` without the `user_agent`
named parameter makes `CrawlerBind` throw
`BinderException("crawl_urls requires 'user_agent' parameter")`
(crawler_function.cpp:162-164).  The bind phase is pure — it creates no
tables, starts no workers and issues no HTTP requests — so the failure
precedes all of those. -/
theorem c5_missing_user_agent_fails_at_bind (ps : List NamedParam)
    (inputs : List BindInput) (h : ∀ p ∈ ps, p.isUserAgent = false) :
    CrawlerBind ps inputs = .error .missingUserAgent := by
  unfold CrawlerBind
  simp only []
  rw [bindParamLoop_noUA ps {} h]
  simp

/-- Witness for C5: binding with only `default_crawl_delay` and an
unrecognized parameter fails with the missing-user-agent binder
error. -/
theorem c5_witness :
    CrawlerBind [NamedParam.default_crawl_delay 2, NamedParam.other]
      [.urlList ["https://example.com/"]] = .error .missingUserAgent :=
  c5_missing_user_agent_fails_at_bind _ _ (by decide)

/-- C2 (code bug): passing `respect_robots_txt := false` has no effect.
`CrawlerBind` parses the parameter (crawler_function.cpp:155-156) but
then unconditionally overwrites both `respect_robots_txt` and
`log_skipped` with `true` (lines 176-177), so the bind data always has
`respect_robots_txt = true` and a fresh-host step still fetches
robots.txt.  Here: the exact invocation
`crawl_urls(['http://example.com/a'], user_agent='TestBot',
respect_robots_txt=false)` binds to `respect_robots_txt = true`, and
running a step on its bind data issues the robots.txt fetch before the
content fetch. -/
theorem c2_respect_robots_txt_false_is_ignored :
    (CrawlerBind [.user_agent "TestBot", .respect_robots_txt false]
        [.urlList ["http://example.com/a"]]).map
      (fun r => (r.1.respect_robots_txt, r.1.log_skipped)) = .ok (true, true) ∧
    (CrawlerBind [.user_agent "TestBot", .respect_robots_txt false]
        [.urlList ["http://example.com/a"]]).map
      (fun r => (CrawlerFunction r.1 fixtureEnvFail {} {} 1000000).fetches.map FetchCall.url) =
      .ok ["https://example.com/robots.txt", "http://example.com/a"] := by
  constructor
  · rfl
  · rfl

/-- C7 counterexample: the claim says the delay is clamped into
`[min_crawl_delay, max_crawl_delay]` also when the robots.txt fetch
fails.  With `min_crawl_delay = 5`, `max_crawl_delay = 60`,
`default_crawl_delay = 1` and a failing robots.txt fetch, the stored
delay after the step is `1`, strictly below the minimum — the failure
branch (crawler_function.cpp:294-297) assigns `default_crawl_delay`
without clamping. -/
theorem c7_counterexample :
    (((CrawlerFunction fixtureBdDis fixtureEnvFail {} {} 1000000).g.domain_states
        "example.com").crawl_delay_seconds = 1) ∧
    fixtureBdDis.min_crawl_delay = 5 ∧ fixtureBdDis.max_crawl_delay = 60 ∧
    ¬((5 : ℚ) ≤ 1) :=
  ⟨by decide, by decide, by decide, by decide⟩

/-- C7 as amended: when the robots.txt fetch succeeds, the seed delay
(the rules' crawl-delay if present, else `default_crawl_delay`) is
clamped with `max` against `min_crawl_delay` and `min` against
`max_crawl_delay` — hence lands in `[min, max]` whenever that interval
is nonempty; when the robots.txt fetch fails, the delay is set to
`default_crawl_delay` with no clamping (crawler_function.cpp:280-297). -/
theorem c7_amended (bd : CrawlerBindData) (env : StepEnv) (g : CrawlerGlobalState)
    (l : CrawlerLocalState) (now0 : ℤ)
    (hl : l.finished = false) (hsd : env.shutdownAtEntry = false)
    (hidx : g.current_url_index < bd.urls.length)
    (hr : bd.respect_robots_txt = true)
    (hf : (g.domain_states (ExtractDomain (urlAt bd g.current_url_index))).robots_fetched = false) :
    ((env.fetch (robotsUrlFor (ExtractDomain (urlAt bd g.current_url_index)))).success = true →
      ((CrawlerFunction bd env g l now0).g.domain_states
          (ExtractDomain (urlAt bd g.current_url_index))).crawl_delay_seconds =
        min (max ((env.getRules
              (env.fetch (robotsUrlFor (ExtractDomain (urlAt bd g.current_url_index)))).body).crawl_delay.getD
              bd.default_crawl_delay)
            bd.min_crawl_delay) bd.max_crawl_delay ∧
      (bd.min_crawl_delay ≤ bd.max_crawl_delay →
        bd.min_crawl_delay ≤
            ((CrawlerFunction bd env g l now0).g.domain_states
              (ExtractDomain (urlAt bd g.current_url_index))).crawl_delay_seconds ∧
          ((CrawlerFunction bd env g l now0).g.domain_states
              (ExtractDomain (urlAt bd g.current_url_index))).crawl_delay_seconds ≤
            bd.max_crawl_delay)) ∧
    ((env.fetch (robotsUrlFor (ExtractDomain (urlAt bd g.current_url_index)))).success = false →
      ((CrawlerFunction bd env g l now0).g.domain_states
          (ExtractDomain (urlAt bd g.current_url_index))).crawl_delay_seconds =
        bd.default_crawl_delay) := by
  have hrb : robotsBlockRuns bd
      (g.domain_states (ExtractDomain (urlAt bd g.current_url_index))) = true :=
    robotsBlockRuns_of _ _ hr hf
  have hdelay : (stateAfterRobots bd env (ExtractDomain (urlAt bd g.current_url_index))
      (g.domain_states (ExtractDomain (urlAt bd g.current_url_index)))).crawl_delay_seconds =
      if (env.fetch (robotsUrlFor (ExtractDomain (urlAt bd g.current_url_index)))).success = true then
        min (max ((env.getRules
            (env.fetch (robotsUrlFor (ExtractDomain (urlAt bd g.current_url_index)))).body).crawl_delay.getD
            bd.default_crawl_delay) bd.min_crawl_delay) bd.max_crawl_delay
      else bd.default_crawl_delay := by
    unfold stateAfterRobots
    rw [if_pos hrb]
    simp only []
    split <;> rfl
  have hpost : ((CrawlerFunction bd env g l now0).g.domain_states
      (ExtractDomain (urlAt bd g.current_url_index))).crawl_delay_seconds =
      (stateAfterRobots bd env (ExtractDomain (urlAt bd g.current_url_index))
        (g.domain_states (ExtractDomain (urlAt bd g.current_url_index)))).crawl_delay_seconds := by
    unfold CrawlerFunction
    rw [if_neg (by simp [hl, hsd])]
    rw [if_neg (by omega)]
    simp only []
    split
    · split
      · simp [setDomain_same]
      · simp [setDomain_same]
    · split
      · simp [setDomain_same]
      · simp [setDomain_same]
  constructor
  · intro hs
    rw [hpost, hdelay, if_pos hs]
    refine ⟨rfl, fun hminmax => ⟨le_min (le_max_right _ _) hminmax, min_le_right _ _⟩⟩
  · intro hs
    rw [hpost, hdelay, if_neg (by simp [hs])]

/-- Witness for C7's amended theorem: a robots.txt crawl-delay of 120 s
under `max_crawl_delay = 60` is clamped to 60 s. -/
theorem c7_witness :
    ((CrawlerFunction fixtureBdDis fixtureEnvBigDelay {} {} 1000000).g.domain_states
      "example.com").crawl_delay_seconds = 60 := by
  have h := (c7_amended fixtureBdDis fixtureEnvBigDelay {} {} 1000000
    rfl rfl (by decide) rfl (by decide)).1 (by decide)
  exact h.1.trans (by decide)

/-- C1 counterexample: the claim requires the skip row to carry
`error_type = robots_disallowed`, but the output schema declared by
`CrawlerBind` (crawler_function.cpp:195-217) has no `error_type` column
at all; the concrete disallowed input
`https://example.com/private/secret` (robots disallowing `/private`)
produces the single row with `http_status = -1`, null body and
`error = "robots.txt disallow"` in the 8-column schema. -/
theorem c1_counterexample :
    "error_type" ∉ crawlerOutputNames ∧
    (CrawlerBind [.user_agent "Bot"] [.urlList ["https://example.com/private/secret"]]).map
      (fun r => r.2) = .ok crawlerOutputNames ∧
    (CrawlerFunction fixtureBdDis fixtureEnvDis {} {} 1000000).output =
      [⟨"https://example.com/private/secret", "example.com", -1, none, none, 0, 777,
        some "robots.txt disallow"⟩] :=
  ⟨by decide, rfl, by decide⟩

/-- C1 as amended: for a URL whose path the robots rules in force
disallow (with robots respected), the step issues no content fetch —
its only possible `HttpClient::Fetch` call is the robots.txt fetch
itself —, consumes the URL, and: if `log_skipped` it emits exactly one
row `⟨url, domain, -1, null body, null content_type, 0, now,
error = "robots.txt disallow"⟩` (there is no `error_type` column); if
not `log_skipped` it emits no row (crawler_function.cpp:302-324). -/
theorem c1_amended (bd : CrawlerBindData) (env : StepEnv) (g : CrawlerGlobalState)
    (l : CrawlerLocalState) (now0 : ℤ)
    (hl : l.finished = false) (hsd : env.shutdownAtEntry = false)
    (hidx : g.current_url_index < bd.urls.length)
    (hr : bd.respect_robots_txt = true)
    (hdis : IsAllowed (stateAfterRobots bd env (ExtractDomain (urlAt bd g.current_url_index))
        (g.domain_states (ExtractDomain (urlAt bd g.current_url_index)))).rules
        (ExtractPath (urlAt bd g.current_url_index)) = false) :
    (CrawlerFunction bd env g l now0).fetches =
      robotsFetchCalls bd (ExtractDomain (urlAt bd g.current_url_index))
        (g.domain_states (ExtractDomain (urlAt bd g.current_url_index))) ∧
    (CrawlerFunction bd env g l now0).event = none ∧
    ((CrawlerFunction bd env g l now0).g).current_url_index = g.current_url_index + 1 ∧
    (bd.log_skipped = true →
      (CrawlerFunction bd env g l now0).output =
        [⟨urlAt bd g.current_url_index, ExtractDomain (urlAt bd g.current_url_index), -1,
          none, none, 0, env.sysNow, some "robots.txt disallow"⟩]) ∧
    (bd.log_skipped = false → (CrawlerFunction bd env g l now0).output = []) := by
  unfold CrawlerFunction
  rw [if_neg (by simp [hl, hsd])]
  rw [if_neg (by omega)]
  simp only []
  rw [if_pos (by simp [hr, hdis])]
  split
  · refine ⟨rfl, rfl, rfl, fun _ => rfl, fun hlg => ?_⟩
    simp_all
  · rename_i hlg
    refine ⟨rfl, rfl, rfl, fun h2 => ?_, fun _ => rfl⟩
    simp_all

/-- Witness for C1's amended theorem, at the concrete disallowed
input. -/
theorem c1_witness :
    (CrawlerFunction fixtureBdDis fixtureEnvDis {} {} 1000000).fetches =
      robotsFetchCalls fixtureBdDis (ExtractDomain (urlAt fixtureBdDis 0))
        (({} : CrawlerGlobalState).domain_states (ExtractDomain (urlAt fixtureBdDis 0))) ∧
    (CrawlerFunction fixtureBdDis fixtureEnvDis {} {} 1000000).event = none ∧
    ((CrawlerFunction fixtureBdDis fixtureEnvDis {} {} 1000000).g).current_url_index = 0 + 1 ∧
    (fixtureBdDis.log_skipped = true →
      (CrawlerFunction fixtureBdDis fixtureEnvDis {} {} 1000000).output =
        [⟨urlAt fixtureBdDis 0, ExtractDomain (urlAt fixtureBdDis 0), -1,
          none, none, 0, fixtureEnvDis.sysNow, some "robots.txt disallow"⟩]) ∧
    (fixtureBdDis.log_skipped = false →
      (CrawlerFunction fixtureBdDis fixtureEnvDis {} {} 1000000).output = []) :=
  c1_amended fixtureBdDis fixtureEnvDis {} {} 1000000 rfl rfl (by decide) rfl (by decide)

/-- C10 (confirmed): when the shutdown flag is observed set at the
post-sleep check (crawler_function.cpp:336-341), the URL — whose index
was already advanced at line 264 — is consumed with no HTTP fetch and
no output row; only `total_cancelled` is incremented.  An interrupted
run therefore returns fewer rows than input URLs, with no error row
for the missing ones.  (Stated for a host whose robots.txt is already
fetched, the situation in which the crawl-delay sleep occurs.) -/
theorem c10_shutdown_during_sleep_consumes_url (bd : CrawlerBindData) (env : StepEnv)
    (g : CrawlerGlobalState) (l : CrawlerLocalState) (now0 : ℤ)
    (hl : l.finished = false) (hsd : env.shutdownAtEntry = false)
    (hidx : g.current_url_index < bd.urls.length)
    (hf : (g.domain_states (ExtractDomain (urlAt bd g.current_url_index))).robots_fetched = true)
    (hallow : IsAllowed ((g.domain_states (ExtractDomain (urlAt bd g.current_url_index)))).rules
        (ExtractPath (urlAt bd g.current_url_index)) = true)
    (hshut : env.shutdownAfterSleep = true) :
    (CrawlerFunction bd env g l now0).output = [] ∧
    (CrawlerFunction bd env g l now0).fetches = [] ∧
    (CrawlerFunction bd env g l now0).event = none ∧
    ((CrawlerFunction bd env g l now0).g).current_url_index = g.current_url_index + 1 ∧
    ((CrawlerFunction bd env g l now0).g).total_cancelled = g.total_cancelled + 1 := by
  unfold CrawlerFunction
  rw [if_neg (by simp [hl, hsd])]
  rw [if_neg (by omega)]
  simp only []
  rw [stateAfterRobots_of_fetched _ _ _ _ hf]
  rw [if_neg (by simp [hallow])]
  rw [if_pos hshut]
  refine ⟨rfl, ?_, rfl, rfl, rfl⟩
  simp [robotsFetchCalls, robotsBlockRuns, hf]

/-- Witness for C10: host `h.com` already has robots fetched and a 2 s
delay; the shutdown flag set during the sleep cancels the fetch, emits
nothing and consumes the URL. -/
theorem c10_witness :
    (CrawlerFunction fixtureBdTwo fixtureEnvShutdownAfter fixtureGMid {} 1000000).output = [] ∧
    (CrawlerFunction fixtureBdTwo fixtureEnvShutdownAfter fixtureGMid {} 1000000).fetches = [] ∧
    (CrawlerFunction fixtureBdTwo fixtureEnvShutdownAfter fixtureGMid {} 1000000).event = none ∧
    ((CrawlerFunction fixtureBdTwo fixtureEnvShutdownAfter fixtureGMid {} 1000000).g).current_url_index =
      0 + 1 ∧
    ((CrawlerFunction fixtureBdTwo fixtureEnvShutdownAfter fixtureGMid {} 1000000).g).total_cancelled =
      0 + 1 :=
  c10_shutdown_during_sleep_consumes_url fixtureBdTwo fixtureEnvShutdownAfter fixtureGMid {}
    1000000 rfl rfl (by decide) (by decide) (by decide) rfl

theorem runCrawler_append (bd : CrawlerBindData) (es1 es2 : List StepEnv) (acc : RunAcc) :
    runCrawler bd (es1 ++ es2) acc = runCrawler bd es2 (runCrawler bd es1 acc) := by
  induction es1 generalizing acc with
  | nil => rfl
  | cons e es ih => simp only [List.cons_append, runCrawler]; exact ih _

theorem runCrawler_rows_mono (bd : CrawlerBindData) (es : List StepEnv) (acc : RunAcc) :
    acc.rows <+: (runCrawler bd es acc).rows := by
  induction es generalizing acc with
  | nil => exact List.prefix_refl _
  | cons e es ih =>
    simp only [runCrawler]
    refine List.IsPrefix.trans ?_ (ih _)
    exact List.prefix_append _ _

/-- C4 (confirmed): interrupt behaviour (crawler_function.cpp:26-41,
243-251).  (1) A first SIGINT (fresh count, as reset by
`CrawlerInitGlobal`) only sets the shutdown flag: the handler returns
without exiting.  (2) With the flag set at the entry check, a worker
invocation takes no new URL, fetches nothing and changes no state (an
in-flight fetch is unaffected: the flag is only read at lines 248 and
337).  (3) A second SIGINT within 3 seconds of the first calls
`std::exit(1)` immediately.  (4) Aborting a run after any number of
invocations preserves the rows already emitted: they are a prefix of
any longer run's rows, so already-delivered rows survive while the
still-queued URLs simply never produce rows. -/
theorem c4_interrupt_behaviour :
    (∀ (s : SignalState) (t : ℤ), s.sigint_count = 0 →
      SignalHandler SIGINT t s = .continues ⟨true, 1, t⟩) ∧
    (∀ (bd : CrawlerBindData) (env : StepEnv) (g : CrawlerGlobalState)
        (l : CrawlerLocalState) (now0 : ℤ), env.shutdownAtEntry = true →
      CrawlerFunction bd env g l now0 = ⟨[], g, l, now0, [], none⟩) ∧
    (∀ (t1 t2 : ℤ), 0 ≤ t2 - t1 → t2 - t1 < 3000 →
      SignalHandler SIGINT t2 ⟨true, 1, t1⟩ = .exited 1) ∧
    (∀ (bd : CrawlerBindData) (es1 es2 : List StepEnv) (acc : RunAcc),
      (runCrawler bd es1 acc).rows <+: (runCrawler bd (es1 ++ es2) acc).rows) := by
  refine ⟨?_, ?_, ?_, ?_⟩
  · intro s t hs
    unfold SignalHandler
    rw [if_pos rfl]
    simp only []
    rw [if_neg (by rw [hs]; intro h; omega)]
    simp [hs]
  · intro bd env g l now0 h
    unfold CrawlerFunction
    rw [if_pos (by simp [h])]
  · intro t1 t2 h0 h3
    unfold SignalHandler
    rw [if_pos rfl]
    simp only []
    rw [if_pos ?_]
    constructor
    · omega
    · show Int.tdiv (t2 - t1) 1000 < 3
      rw [Int.tdiv_eq_ediv h0 (by omega)]
      omega
  · intro bd es1 es2 acc
    rw [runCrawler_append]
    exact runCrawler_rows_mono _ _ _

/-- Witness for C4: a first SIGINT at t=100000 ms sets the flag; a step
under the set flag does nothing; a second SIGINT 1.5 s later exits with
code 1; a one-step run's rows are a prefix of the two-step run's. -/
theorem c4_witness :
    SignalHandler SIGINT 100000 ⟨false, 0, 0⟩ = .continues ⟨true, 1, 100000⟩ ∧
    CrawlerFunction fixtureBdTwo fixtureEnvShutdownEntry {} {} 1000000 =
      ⟨[], {}, {}, 1000000, [], none⟩ ∧
    SignalHandler SIGINT 101500 ⟨true, 1, 100000⟩ = .exited 1 ∧
    (runCrawler fixtureBdTwo [fixtureEnvFail] (initAcc 1000000)).rows <+:
      (runCrawler fixtureBdTwo ([fixtureEnvFail] ++ [fixtureEnvFail]) (initAcc 1000000)).rows :=
  ⟨c4_interrupt_behaviour.1 _ _ rfl,
   c4_interrupt_behaviour.2.1 fixtureBdTwo fixtureEnvShutdownEntry {} {} 1000000 rfl,
   c4_interrupt_behaviour.2.2.1 100000 101500 (by decide) (by decide),
   c4_interrupt_behaviour.2.2.2 fixtureBdTwo [fixtureEnvFail] [fixtureEnvFail] (initAcc 1000000)⟩

/-- C6 counterexample: the claim says successive retry delays follow
Fibonacci numbers of seconds (1, 1, 2, 3, 5, 8, …).  The `RetryConfig`
declared in `http_client.hpp` (initial 100 ms, multiplier 2.0, cap
30000 ms) yields the schedule 100 ms, 200 ms, 400 ms for the worker's
three retries — not the Fibonacci 1000 ms, 1000 ms, 2000 ms. -/
theorem c6_counterexample :
    (FetchModel fixtureResults503 workerRetryConfig).2 = [100, 200, 400] ∧
    (List.range 3).map specFibBackoffMs = [1000, 1000, 2000] ∧
    ([100, 200, 400] : List ℚ) ≠ [1000, 1000, 2000] := by
  refine ⟨?_, ?_, by simp⟩
  · show (fetchAttempts fixtureResults503 workerRetryConfig 3 0).2 = _
    rw [show (3 : Nat) = 2 + 1 from rfl, fetchAttempts]
    rw [if_neg (by decide), if_pos (by decide)]
    rw [show (2 : Nat) = 1 + 1 from rfl, fetchAttempts]
    rw [if_neg (by decide), if_pos (by decide)]
    rw [show (1 : Nat) = 0 + 1 from rfl, fetchAttempts]
    rw [if_neg (by decide), if_pos (by decide)]
    show [retryDelayMs workerRetryConfig 0, retryDelayMs workerRetryConfig 1,
      retryDelayMs workerRetryConfig 2] = _
    norm_num [retryDelayMs, workerRetryConfig]
  · norm_num [List.range_succ, specFibBackoffMs, specFib]

/-- C6 as amended: for a fetch whose first attempts fail with retryable
errors, the retry delays follow the exponential `RetryConfig` schedule
(`initial_backoff_ms` doubled per attempt, capped at `max_backoff_ms`;
defaults 100 ms, ×2.0, 30 s), and the entry is retried until
`max_retries` — which the worker passes as 3
(crawler_function.cpp:346-347) — is exhausted, at which point the
terminal result carries the last attempt's outcome. -/
theorem c6_amended (results : Nat → HttpResponse)
    (h : ∀ i, i < 3 → (results i).success = false ∧ IsRetryable (results i).status_code = true) :
    FetchModel results workerRetryConfig =
      (results 3, [retryDelayMs workerRetryConfig 0, retryDelayMs workerRetryConfig 1,
        retryDelayMs workerRetryConfig 2]) ∧
    workerRetryConfig.max_retries = 3 := by
  have h0 := h 0 (by omega)
  have h1 := h 1 (by omega)
  have h2 := h 2 (by omega)
  refine ⟨?_, rfl⟩
  show fetchAttempts results workerRetryConfig 3 0 = _
  rw [show (3 : Nat) = 2 + 1 from rfl, fetchAttempts]
  simp only [h0.1, h0.2, Bool.false_eq_true, if_false, if_true]
  rw [show (2 : Nat) = 1 + 1 from rfl, fetchAttempts]
  simp only [h1.1, h1.2, Bool.false_eq_true, if_false, if_true]
  rw [show (1 : Nat) = 0 + 1 from rfl, fetchAttempts]
  simp only [h2.1, h2.2, Bool.false_eq_true, if_false, if_true]
  rfl

/-- Witness for C6's amended theorem: all attempts return 503. -/
theorem c6_witness :
    FetchModel fixtureResults503 workerRetryConfig =
      (fixtureResults503 3, [retryDelayMs workerRetryConfig 0, retryDelayMs workerRetryConfig 1,
        retryDelayMs workerRetryConfig 2]) ∧
    workerRetryConfig.max_retries = 3 :=
  c6_amended fixtureResults503 (fun _ _ => ⟨rfl, rfl⟩)

/-- C8 counterexample: the claim says an input lacking scheme+host is
rejected with `invalid_url` and never fetched.  The input
`"not-a-url"` has no `"://"`, so `ExtractDomain` yields `""` — yet the
step still calls `HttpClient::Fetch` on the raw string (after a robots
probe of `https:///robots.txt`) and emits a normal row whose `error`
column is simply the client's (here: empty → NULL), with no
`invalid_url` anywhere. -/
theorem c8_counterexample :
    ExtractDomain "not-a-url" = "" ∧ ExtractPath "not-a-url" = "/" ∧
    (CrawlerFunction fixtureBdNotUrl fixtureEnvFail {} {} 1000000).fetches.map FetchCall.url =
      ["https:///robots.txt", "not-a-url"] ∧
    (CrawlerFunction fixtureBdNotUrl fixtureEnvFail {} {} 1000000).output =
      [⟨"not-a-url", "", 0, none, none, 10, 777, none⟩] :=
  ⟨by decide, by decide, by decide, by decide⟩

/-- C8 as amended: `CrawlerFunction` performs no URL validation.
Whenever a URL reaches the fetch branch it is passed verbatim to
`HttpClient::Fetch`, whatever its shape; and for any input without a
`"://"` separator, domain extraction yields `""` and path extraction
yields `"/"`, with no `invalid_url` rejection. -/
theorem c8_amended (bd : CrawlerBindData) (env : StepEnv) (g : CrawlerGlobalState)
    (l : CrawlerLocalState) (now0 : ℤ)
    (hl : l.finished = false) (hsd : env.shutdownAtEntry = false)
    (hidx : g.current_url_index < bd.urls.length)
    (hallow : IsAllowed (stateAfterRobots bd env (ExtractDomain (urlAt bd g.current_url_index))
        (g.domain_states (ExtractDomain (urlAt bd g.current_url_index)))).rules
        (ExtractPath (urlAt bd g.current_url_index)) = true)
    (hshut : env.shutdownAfterSleep = false) :
    (CrawlerFunction bd env g l now0).fetches =
      robotsFetchCalls bd (ExtractDomain (urlAt bd g.current_url_index))
        (g.domain_states (ExtractDomain (urlAt bd g.current_url_index))) ++
        [⟨urlAt bd g.current_url_index, workerRetryConfig, bd.user_agent⟩] ∧
    (∀ u : String, strFind u "://" = none → ExtractDomain u = "" ∧ ExtractPath u = "/") := by
  constructor
  · unfold CrawlerFunction
    rw [if_neg (by simp [hl, hsd])]
    rw [if_neg (by omega)]
    simp only []
    rw [if_neg (by simp [hallow])]
    rw [if_neg (by simp [hshut])]
  · intro u hu
    constructor
    · unfold ExtractDomain
      rw [hu]
    · unfold ExtractPath
      rw [hu]

/-- Witness for C8's amended theorem, at the scheme-less input
`"not-a-url"`. -/
theorem c8_witness :
    (CrawlerFunction fixtureBdNotUrl fixtureEnvFail {} {} 1000000).fetches =
      robotsFetchCalls fixtureBdNotUrl (ExtractDomain (urlAt fixtureBdNotUrl 0))
        (({} : CrawlerGlobalState).domain_states (ExtractDomain (urlAt fixtureBdNotUrl 0))) ++
        [⟨urlAt fixtureBdNotUrl 0, workerRetryConfig, fixtureBdNotUrl.user_agent⟩] ∧
    (∀ u : String, strFind u "://" = none → ExtractDomain u = "" ∧ ExtractPath u = "/") :=
  c8_amended fixtureBdNotUrl fixtureEnvFail {} {} 1000000 rfl rfl (by decide) (by decide) rfl

theorem step_early_eq (bd : CrawlerBindData) (env : StepEnv) (g : CrawlerGlobalState)
    (l : CrawlerLocalState) (now0 : ℤ) (h : l.finished = true ∨ env.shutdownAtEntry = true) :
    CrawlerFunction bd env g l now0 = ⟨[], g, l, now0, [], none⟩ := by
  unfold CrawlerFunction
  rcases h with h | h <;> rw [if_pos (by simp [h])]

theorem step_exhausted_eq (bd : CrawlerBindData) (env : StepEnv) (g : CrawlerGlobalState)
    (l : CrawlerLocalState) (now0 : ℤ) (hl : l.finished = false) (hsd : env.shutdownAtEntry = false)
    (h : bd.urls.length ≤ g.current_url_index) :
    CrawlerFunction bd env g l now0 = ⟨[], g, { finished := true }, now0, [], none⟩ := by
  unfold CrawlerFunction
  rw [if_neg (by simp [hl, hsd]), if_pos h]

theorem step_disallow_eq (bd : CrawlerBindData) (env : StepEnv) (g : CrawlerGlobalState)
    (l : CrawlerLocalState) (now0 : ℤ) (hl : l.finished = false) (hsd : env.shutdownAtEntry = false)
    (hidx : g.current_url_index < bd.urls.length)
    (hcond : (bd.respect_robots_txt && !(IsAllowed (stepSt1 bd env g).rules (stepPath bd g))) = true) :
    (CrawlerFunction bd env g l now0).event = none ∧
    (CrawlerFunction bd env g l now0).g =
      { g with
        current_url_index := g.current_url_index + 1,
        domain_states := setDomain g.domain_states (stepDomain bd g)
          { stepSt1 bd env g with urls_skipped := (stepSt1 bd env g).urls_skipped + 1 },
        total_skipped := g.total_skipped + 1 } := by
  unfold CrawlerFunction
  rw [if_neg (by simp [hl, hsd]), if_neg (by omega)]
  simp only []
  rw [if_pos (by exact hcond)]
  split <;> exact ⟨rfl, rfl⟩

theorem step_cancel_eq (bd : CrawlerBindData) (env : StepEnv) (g : CrawlerGlobalState)
    (l : CrawlerLocalState) (now0 : ℤ) (hl : l.finished = false) (hsd : env.shutdownAtEntry = false)
    (hidx : g.current_url_index < bd.urls.length)
    (hcond : (bd.respect_robots_txt && !(IsAllowed (stepSt1 bd env g).rules (stepPath bd g))) = false)
    (hshut : env.shutdownAfterSleep = true) :
    (CrawlerFunction bd env g l now0).event = none ∧
    (CrawlerFunction bd env g l now0).g =
      { g with
        current_url_index := g.current_url_index + 1,
        domain_states := setDomain g.domain_states (stepDomain bd g) (stepSt1 bd env g),
        total_cancelled := g.total_cancelled + 1 } := by
  unfold CrawlerFunction
  rw [if_neg (by simp [hl, hsd]), if_neg (by omega)]
  simp only []
  have hcond2 : ¬((bd.respect_robots_txt &&
      !(IsAllowed (stepSt1 bd env g).rules (stepPath bd g))) = true) := by simp [hcond]
  rw [if_neg (by exact hcond2), if_pos hshut]
  exact ⟨rfl, rfl⟩

theorem step_fetch_eq (bd : CrawlerBindData) (env : StepEnv) (g : CrawlerGlobalState)
    (l : CrawlerLocalState) (now0 : ℤ) (hl : l.finished = false) (hsd : env.shutdownAtEntry = false)
    (hidx : g.current_url_index < bd.urls.length)
    (hcond : (bd.respect_robots_txt && !(IsAllowed (stepSt1 bd env g).rules (stepPath bd g))) = false)
    (hshut : env.shutdownAfterSleep = false) :
    (CrawlerFunction bd env g l now0).event = some (stepEventVal bd env g now0) ∧
    (CrawlerFunction bd env g l now0).g =
      { g with
        current_url_index := g.current_url_index + 1,
        domain_states := setDomain g.domain_states (stepDomain bd g) (stepSt2 bd env g now0),
        total_crawled := g.total_crawled + (if (env.fetch (stepUrl bd g)).success then 1 else 0),
        total_failed := g.total_failed + (if (env.fetch (stepUrl bd g)).success then 0 else 1) } := by
  unfold CrawlerFunction
  rw [if_neg (by simp [hl, hsd]), if_neg (by omega)]
  simp only []
  have hcond2 : ¬((bd.respect_robots_txt &&
      !(IsAllowed (stepSt1 bd env g).rules (stepPath bd g))) = true) := by simp [hcond]
  rw [if_neg (by exact hcond2), if_neg (by simp [hshut])]
  exact ⟨rfl, rfl⟩



theorem ratTruncToInt_gt (q : ℚ) : q - 1 < (ratTruncToInt q : ℚ) := by
  have hden : (0 : ℤ) < (q.den : ℤ) := by exact_mod_cast q.pos
  have hmod := Int.tmod_lt_of_pos q.num hden
  have hdiv := Int.tdiv_add_tmod q.num (q.den : ℤ)
  have key : q.num < ((q.num.tdiv (q.den : ℤ)) + 1) * (q.den : ℤ) := by linarith
  have hq : q = (q.num : ℚ) / (q.den : ℚ) := (Rat.num_div_den q).symm
  have hdenQ : (0 : ℚ) < (q.den : ℚ) := by exact_mod_cast q.pos
  unfold ratTruncToInt
  rw [sub_lt_iff_lt_add]
  nth_rewrite 1 [hq]
  rw [div_lt_iff₀ hdenQ]
  exact_mod_cast key

theorem requiredDelayMs_ge (q : ℚ) : q * 1000 - 50 ≤ (requiredDelayMs q : ℚ) := by
  have h := ratTruncToInt_gt (q * 1000)
  unfold requiredDelayMs
  linarith

theorem stepNow2_ge (bd : CrawlerBindData) (env : StepEnv) (g : CrawlerGlobalState) (now0 : ℤ) :
    (stepSt0 bd g).last_crawl_time + stepReq bd env g ≤ stepNow2 bd env g now0 := by
  have hlast : (stepSt1 bd env g).last_crawl_time = (stepSt0 bd g).last_crawl_time :=
    stateAfterRobots_last_crawl_time _ _ _ _
  unfold stepNow2
  split <;> omega

theorem stepSt1_stable (bd : CrawlerBindData) (env : StepEnv) (g : CrawlerGlobalState)
    (h : bd.respect_robots_txt = true → (stepSt0 bd g).robots_fetched = true) :
    stepSt1 bd env g = stepSt0 bd g := by
  unfold stepSt1
  rcases hr : bd.respect_robots_txt with _ | _
  · exact stateAfterRobots_of_noRespect _ _ _ _ hr
  · exact stateAfterRobots_of_fetched _ _ _ _ (h hr)



theorem domainEvents_append (evs1 evs2 : List FetchEvent) (d : String) :
    domainEvents (evs1 ++ evs2) d = domainEvents evs1 d ++ domainEvents evs2 d := by
  simp [domainEvents, List.filter_append]

theorem domainEvents_singleton (e : FetchEvent) (d : String) :
    domainEvents [e] d = if e.domain = d then [e] else [] := by
  by_cases h : e.domain = d <;> simp [domainEvents, h]

theorem runInv_step (bd : CrawlerBindData) (env : StepEnv) (acc : RunAcc)
    (hinv : RunInv bd acc) :
    RunInv bd ⟨(CrawlerFunction bd env acc.g acc.l acc.now).g,
               (CrawlerFunction bd env acc.g acc.l acc.now).l,
               (CrawlerFunction bd env acc.g acc.l acc.now).now,
               acc.rows ++ (CrawlerFunction bd env acc.g acc.l acc.now).output,
               acc.events ++ (CrawlerFunction bd env acc.g acc.l acc.now).event.toList,
               acc.fetches ++ (CrawlerFunction bd env acc.g acc.l acc.now).fetches⟩ := by
  obtain ⟨hchain, hwf, hlast⟩ := hinv
  by_cases hl : acc.l.finished = true
  · rw [step_early_eq bd env acc.g acc.l acc.now (Or.inl hl)]
    exact ⟨fun d => by simpa [domainEvents] using hchain d,
           fun e he => hwf e (by simpa using he),
           fun d e h => hlast d e (by simpa [domainEvents] using h)⟩
  · by_cases hsd : env.shutdownAtEntry = true
    · rw [step_early_eq bd env acc.g acc.l acc.now (Or.inr hsd)]
      exact ⟨fun d => by simpa [domainEvents] using hchain d,
             fun e he => hwf e (by simpa using he),
             fun d e h => hlast d e (by simpa [domainEvents] using h)⟩
    · replace hl : acc.l.finished = false := by simpa using hl
      replace hsd : env.shutdownAtEntry = false := by simpa using hsd
      by_cases hidx : bd.urls.length ≤ acc.g.current_url_index
      · rw [step_exhausted_eq bd env acc.g acc.l acc.now hl hsd hidx]
        exact ⟨fun d => by simpa [domainEvents] using hchain d,
               fun e he => hwf e (by simpa using he),
               fun d e h => hlast d e (by simpa [domainEvents] using h)⟩
      · replace hidx : acc.g.current_url_index < bd.urls.length := by omega
        by_cases hcond : (bd.respect_robots_txt &&
            !(IsAllowed (stepSt1 bd env acc.g).rules (stepPath bd acc.g))) = true
        · -- disallow branch
          obtain ⟨hev, hg⟩ := step_disallow_eq bd env acc.g acc.l acc.now hl hsd hidx hcond
          rw [hev, hg]
          refine ⟨fun d => by simpa [domainEvents] using hchain d,
                  fun e he => hwf e (by simpa using he),
                  fun d e h => ?_⟩
          replace h : (domainEvents acc.events d).getLast? = some e := by
            simpa [domainEvents] using h
          obtain ⟨h1, h2, h3⟩ := hlast d e h
          by_cases hd : d = stepDomain bd acc.g
          · subst hd
            have hstable : stepSt1 bd env acc.g = stepSt0 bd acc.g := stepSt1_stable _ _ _ h3
            simp only [setDomain_same]
            rw [hstable]
            exact ⟨h1, h2, h3⟩
          · simp only [setDomain_other _ _ _ _ hd]
            exact ⟨h1, h2, h3⟩
        · replace hcond : (bd.respect_robots_txt &&
              !(IsAllowed (stepSt1 bd env acc.g).rules (stepPath bd acc.g))) = false := by
            simpa using hcond
          by_cases hshut : env.shutdownAfterSleep = true
          · -- cancel branch
            obtain ⟨hev, hg⟩ := step_cancel_eq bd env acc.g acc.l acc.now hl hsd hidx hcond hshut
            rw [hev, hg]
            refine ⟨fun d => by simpa [domainEvents] using hchain d,
                    fun e he => hwf e (by simpa using he),
                    fun d e h => ?_⟩
            replace h : (domainEvents acc.events d).getLast? = some e := by
              simpa [domainEvents] using h
            obtain ⟨h1, h2, h3⟩ := hlast d e h
            by_cases hd : d = stepDomain bd acc.g
            · subst hd
              have hstable : stepSt1 bd env acc.g = stepSt0 bd acc.g := stepSt1_stable _ _ _ h3
              simp only [setDomain_same]
              rw [hstable]
              exact ⟨h1, h2, h3⟩
            · simp only [setDomain_other _ _ _ _ hd]
              exact ⟨h1, h2, h3⟩
          · replace hshut : env.shutdownAfterSleep = false := by simpa using hshut
            -- fetch branch
            obtain ⟨hev, hg⟩ := step_fetch_eq bd env acc.g acc.l acc.now hl hsd hidx hcond hshut
            rw [hev, hg]
            simp only [Option.toList]
            refine ⟨fun d => ?_, fun e he => ?_, fun d e h => ?_⟩
            · -- chains
              show List.Chain' pacedR (domainEvents (acc.events ++ [stepEventVal bd env acc.g acc.now]) d)
              rw [domainEvents_append, domainEvents_singleton]
              by_cases hd : (stepEventVal bd env acc.g acc.now).domain = d
              · rw [if_pos hd]
                refine List.Chain'.append (hchain d) (List.chain'_singleton _) ?_
                intro x hx y hy
                simp only [List.head?_cons, Option.mem_def, Option.some.injEq] at hy
                subst hy
                have hx' : (domainEvents acc.events d).getLast? = some x := hx
                obtain ⟨h1, h2, h3⟩ := hlast d x hx'
                have hd' : d = stepDomain bd acc.g := hd.symm
                subst hd'
                have hstable : stepSt1 bd env acc.g = stepSt0 bd acc.g := stepSt1_stable _ _ _ h3
                have hge := stepNow2_ge bd env acc.g acc.now
                have h1s : (stepSt0 bd acc.g).last_crawl_time = x.finish := h1
                have hdelayQ : (stepEventVal bd env acc.g acc.now).delayQ =
                    (stepSt0 bd acc.g).crawl_delay_seconds := by
                  show (stepSt1 bd env acc.g).crawl_delay_seconds = _
                  rw [hstable]
                refine ⟨?_, ?_, ?_⟩
                · show x.finish + stepReq bd env acc.g ≤ stepNow2 bd env acc.g acc.now
                  omega
                · rw [hdelayQ]
                  exact h2
                · have hcast : (x.finish : ℚ) + ((stepReq bd env acc.g : ℤ) : ℚ) ≤
                      ((stepNow2 bd env acc.g acc.now : ℤ) : ℚ) := by
                    have : x.finish + stepReq bd env acc.g ≤ stepNow2 bd env acc.g acc.now := by omega
                    exact_mod_cast this
                  have hreq : (stepEventVal bd env acc.g acc.now).delayQ * 1000 - 50 ≤
                      ((stepReq bd env acc.g : ℤ) : ℚ) := by
                    have := requiredDelayMs_ge ((stepSt1 bd env acc.g).crawl_delay_seconds)
                    exact this
                  show (x.finish : ℚ) + (stepEventVal bd env acc.g acc.now).delayQ * 1000 - 50 ≤
                    ((stepNow2 bd env acc.g acc.now : ℤ) : ℚ)
                  linarith
              · rw [if_neg hd]
                simpa using hchain d
            · -- wf
              rcases List.mem_append.mp he with hold | hnew
              · exact hwf e hold
              · have : e = stepEventVal bd env acc.g acc.now := by simpa using hnew
                subst this
                rfl
            · -- last facts
              rw [domainEvents_append, domainEvents_singleton] at h
              by_cases hd : (stepEventVal bd env acc.g acc.now).domain = d
              · rw [if_pos hd] at h
                rw [List.getLast?_concat] at h
                replace h : e = stepEventVal bd env acc.g acc.now := by
                  simpa using h.symm
                subst h
                have hd' : d = stepDomain bd acc.g := hd.symm
                subst hd'
                simp only [setDomain_same]
                refine ⟨rfl, rfl, fun hr => ?_⟩
                show (stepSt1 bd env acc.g).robots_fetched = true
                exact stateAfterRobots_fetched_of_respect _ _ _ _ hr
              · rw [if_neg hd] at h
                replace h : (domainEvents acc.events d).getLast? = some e := by
                  simpa using h
                obtain ⟨h1, h2, h3⟩ := hlast d e h
                have hne : d ≠ stepDomain bd acc.g := by
                  intro hdd
                  rw [hdd] at hd
                  exact hd rfl
                simp only [setDomain_other _ _ _ _ hne]
                exact ⟨h1, h2, h3⟩

theorem runInv_init (bd : CrawlerBindData) (now0 : ℤ) : RunInv bd (initAcc now0) :=
  ⟨fun _ => List.chain'_nil,
   fun e he => absurd he (List.not_mem_nil e),
   fun d e h => by simp [initAcc, domainEvents] at h⟩

theorem runInv_run (bd : CrawlerBindData) (envs : List StepEnv) (acc : RunAcc)
    (hinv : RunInv bd acc) : RunInv bd (runCrawler bd envs acc) := by
  induction envs generalizing acc with
  | nil => exact hinv
  | cons e es ih => exact ih _ (runInv_step bd e acc hinv)

/-- C3 (confirmed): per-host pacing.  For any run of `crawl_urls` from
the initial state and any host `d`, the content fetches of `d`, in
order, satisfy: each fetch starts no earlier than the previous fetch of
`d` finished plus the host's `required_delay_ms`
(`⌊crawl_delay_seconds · 1000⌋`, exactly what
crawler_function.cpp:326-334 waits out), the delay in force at the
pacing check equals the delay in force when the previous fetch
finished (the delay can only change in the robots block, which never
reruns once `robots_fetched` is set), and the spec's
50 ms-tolerance bound `start(r₂) ≥ end(r₁) + delay·1000 − 50` holds
(truncation to whole milliseconds loses less than 1 ms).  The second
conjunct ties each event's `delayMs` to the truncation of the host's
rational delay.  The run is sequential whatever the worker count:
`MaxThreads()` is 1 and the entire step body, its crawl-delay sleep
included, holds `global_state.mutex`. -/
theorem c3_per_host_pacing (bd : CrawlerBindData) (envs : List StepEnv) (now0 : ℤ) (d : String) :
    List.Chain' pacedR (domainEvents (runCrawler bd envs (initAcc now0)).events d) ∧
    ∀ e ∈ (runCrawler bd envs (initAcc now0)).events, e.delayMs = requiredDelayMs e.delayQ := by
  have h := runInv_run bd envs (initAcc now0) (runInv_init bd now0)
  exact ⟨h.1 d, h.2.1⟩

end Crawler
